import Mathlib

/-!
# Verification of the robux-hub balance/escrow settlement core

Shallow embedding of the repository's settlement core:

* `supabase/migrations/20251126153908_….sql` — the relational schema; in
  particular the `transactions` table whose `type` column carries the CHECK
  constraint `type IN ('deposit', 'purchase', 'sale', 'withdrawal')`.
* `supabase/functions/asaas-webhook/index.ts` — deposit-confirmation push path.
* `supabase/functions/asaas-check-payment/index.ts` — deposit-confirmation pull
  path (manual status check with description-based dedup).
* `supabase/functions/asaas-create-withdrawal/index.ts` — withdrawal settlement
  with 5% admin fee split.
* the Purchase page's `calculateTotal`/`handlePurchase` — order creation.

Currency amounts (`DECIMAL(10,2)` columns, JS numbers) are modelled as `ℚ`;
the JS handlers compute with full precision, and every value they store into
a `DECIMAL(10,2)` column (`withdrawals.amount`, `orders.total_price`,
`profiles.balance`, `transactions.amount`) is rounded by the store to scale
2, half away from zero (`pgRound2`), as Postgres does on insert/update.
Robux quantities (`INTEGER` columns, `parseInt` results) are `ℤ` wrapped in
`Option` (`none` = `NaN`).  Database rows are lists of records; supabase-js
`.single()` queries (which yield data only when exactly one row matches, and
`null` otherwise, with the error field ignored by this code base) are modelled
by `findSingle`.  External gateway answers and infrastructure write failures
are inputs (oracles) of the modelled handlers.
-/

namespace RobuxHub

/-- A row of `public.profiles` restricted to the columns the core reads:
`id` and `balance DECIMAL(10,2)`. -/
structure Profile where
  id : String
  balance : ℚ
deriving DecidableEq

/-- A row of `public.sellers` restricted to the columns the core reads. -/
structure Seller where
  sid : String
  user_id : String
  price_per_1k : ℚ
  min_amount : ℤ
  max_amount : ℤ
deriving DecidableEq

/-- A row of `public.transactions`.  The source column `type` is named
`txType` here. -/
structure Txn where
  user_id : String
  order_id : Option Nat
  txType : String
  amount : ℚ
  description : String
deriving DecidableEq

/-- A row of `public.orders` restricted to the columns the core writes. -/
structure Order where
  oid : Nat
  buyer_id : String
  seller_id : String
  amount : ℤ
  total_price : ℚ
  delivery_method : String
  status : String
deriving DecidableEq

/-- A row of `public.withdrawals` restricted to the columns the core writes. -/
structure Withdrawal where
  wid : Nat
  seller_id : String
  amount : ℚ
  status : String
deriving DecidableEq

/-- The relational store as seen by the settlement core.  `user_roles` rows are
`(user_id, role)` pairs. -/
structure DB where
  profiles : List Profile
  sellers : List Seller
  orders : List Order
  transactions : List Txn
  withdrawals : List Withdrawal
  user_roles : List (String × String)
deriving DecidableEq

/-- Model of a supabase-js `.select().…single()` whose error field is ignored
by the caller: data is returned exactly when the filter matches exactly one
row (PostgREST `.single()` errors on zero rows and on several rows, and this
code base always destructures `{ data }` without checking the error). -/
def findSingle (p : α → Bool) (l : List α) : Option α :=
  match l.filter p with
  | [x] => some x
  | _ => none

/-- Test `listOccurs pat s`: true iff `pat` occurs as a contiguous run inside
`s`; used to model the SQL `description ILIKE '%paymentId%'` filter. -/
def listOccurs (pat s : List Char) : Bool :=
  (List.range (s.length + 1)).any fun i => ((s.drop i).take pat.length) == pat

/-- Substring test on strings, modelling `ILIKE '%pat%'`. -/
def strContains (s pat : String) : Bool := listOccurs pat.data s.data

/-- The CHECK constraint of `public.transactions.type` from the migration:
`type IN ('deposit', 'purchase', 'sale', 'withdrawal')`.  Note that `'fee'`
is not in the list. -/
def txTypeAllowed (t : String) : Bool :=
  t == "deposit" || t == "purchase" || t == "sale" || t == "withdrawal"

/-- An `INSERT` into `public.transactions` whose result is not checked by the
caller (true of every transaction insert in this code base): the row is stored
iff it satisfies the `type` CHECK constraint, otherwise the statement fails
and, the error being ignored, the table is left unchanged. -/
def txInsert (txs : List Txn) (t : Txn) : List Txn :=
  if txTypeAllowed t.txType then txs ++ [t] else txs

/-- Model of `UPDATE profiles SET balance = b WHERE id = u`. -/
def setBalance (ps : List Profile) (u : String) (b : ℚ) : List Profile :=
  ps.map fun p => if p.id == u then { p with balance := b } else p

/-- Model of `SELECT … FROM profiles WHERE id = u … single()`. -/
def getProfile (db : DB) (u : String) : Option Profile :=
  findSingle (fun p => p.id == u) db.profiles

/-- The balance column of an account, when the account exists. -/
def profileBalance (db : DB) (u : String) : Option ℚ :=
  (getProfile db u).map Profile.balance

/-- Model of `SELECT user_id FROM user_roles WHERE role = 'admin' LIMIT 1 single()`:
the first user that has the admin role, if any. -/
def adminUserId (db : DB) : Option String :=
  ((db.user_roles.filter fun r => r.2 == "admin").head?).map Prod.fst

/-- The recorded amount of a withdrawal row. -/
def wdAmount (db : DB) (wid : Nat) : Option ℚ :=
  (findSingle (fun w => w.wid == wid) db.withdrawals).map Withdrawal.amount

/-- The status of a withdrawal row. -/
def wdStatus (db : DB) (wid : Nat) : Option String :=
  (findSingle (fun w => w.wid == wid) db.withdrawals).map Withdrawal.status

/-- The recorded total price of an order row. -/
def orderTotalPrice (db : DB) (oid : Nat) : Option ℚ :=
  (findSingle (fun o => o.oid == oid) db.orders).map Order.total_price

/-- Sum of the signed transaction amounts of one account. -/
def txnSum (db : DB) (u : String) : ℚ :=
  ((db.transactions.filter fun t => t.user_id == u).map Txn.amount).sum

/-- The spec's core reconciliation invariant: every account's balance equals
the sum of its transaction amounts. -/
def ledgerInv (db : DB) : Bool :=
  db.profiles.all fun p => decide (p.balance = txnSum db p.id)

/-- Scale-2 rounding as Postgres applies it when a value is stored into a
`DECIMAL(10,2)` column (`withdrawals.amount`, `orders.total_price`,
`profiles.balance`, `transactions.amount`): round half away from zero to two
decimal places.  The JS handlers compute with full precision; the store
rounds on every write. -/
def pgRound2 (x : ℚ) : ℚ :=
  if 0 ≤ x then ((⌊x * 100 + 1 / 2⌋ : ℤ) : ℚ) / 100
  else -(((⌊-x * 100 + 1 / 2⌋ : ℤ) : ℚ) / 100)

/-- A two-decimal (whole-cent) currency amount — the only values a
`DECIMAL(10,2)` column can hold, hence the only balances and gross amounts
that occur in the real store. -/
def twoDec (x : ℚ) : Prop := ∃ k : ℤ, x = (k : ℚ) / 100

/-! ## Deposit settlement (push path: `asaas-webhook/index.ts`) -/

/-- The parsed `externalReference` JSON blob:
`{ userId?, type?, withdrawalId? }`.  The source field `type` is named
`rkind` here. -/
structure RefData where
  userId : Option String
  rkind : Option String
  withdrawalId : Option Nat
deriving DecidableEq

/-- The `payment` object of an inbound webhook body.  `ref` is `none` when
`externalReference` is missing or fails to parse (both are skipped by the
handler). -/
structure PaymentEvent where
  pid : String
  value : ℚ
  billingType : String
  ref : Option RefData
deriving DecidableEq

/-- The webhook handler of `asaas-webhook/index.ts`: on
`PAYMENT_CONFIRMED`/`PAYMENT_RECEIVED` with a deposit-kind reference it
credits `payment.value` to the referenced account and inserts a deposit
transaction — with no check for a prior settlement of the same payment id;
on `TRANSFER_CONFIRMED`/`TRANSFER_DONE` with a withdrawal-kind reference it
marks the referenced withdrawal completed. -/
def webhook (db : DB) (event : String) (payment : PaymentEvent) : DB :=
  match payment.ref with
  | none => db
  | some rd =>
    let db1 :=
      if event == "PAYMENT_CONFIRMED" || event == "PAYMENT_RECEIVED" then
        match rd.userId, rd.rkind with
        | some uid, some "deposit" =>
          match getProfile db uid with
          | some p =>
            let newBalance := p.balance + payment.value
            { db with
              profiles := setBalance db.profiles uid newBalance,
              transactions := txInsert db.transactions
                ⟨uid, none, "deposit", payment.value,
                 "Depósito via " ++ payment.billingType ++ " - Asaas #" ++ payment.pid⟩ }
          | none => db
        | _, _ => db
      else db
    if event == "TRANSFER_CONFIRMED" || event == "TRANSFER_DONE" then
      match rd.rkind, rd.withdrawalId with
      | some "withdrawal", some wid =>
        { db1 with withdrawals := db1.withdrawals.map fun w =>
            if w.wid == wid then { w with status := "completed" } else w }
      | _, _ => db1
    else db1

/-! ## Deposit settlement (pull path: `asaas-check-payment/index.ts`) -/

/-- The gateway's answer to `GET /payments/{id}`: `errors` is true when the
gateway reports the payment as not found. -/
structure PayResp where
  errors : Bool
  pstatus : String
  value : ℚ
  billingType : String
  ref : Option RefData
deriving DecidableEq

/-- Result of the manual status check: `err` is a thrown error (HTTP 400)
carrying the store as it stands at the throw; `ok` echoes the gateway's
status, value and billing type back to the caller. -/
inductive CPResult where
  | err : DB → CPResult
  | ok : DB → String → ℚ → String → CPResult
deriving DecidableEq

/-- The dedup filter of the pull path: a deposit transaction of this user
whose description contains the gateway payment id
(`.eq(user_id).eq(type,'deposit').ilike(description,'%paymentId%')`). -/
def depositTxMatches (u pid : String) (t : Txn) : Bool :=
  t.user_id == u && t.txType == "deposit" && strContains t.description pid

/-- The crediting guard of the pull path: gateway status confirmed/received
and the external reference names the calling user with kind "deposit". -/
def creditGuard (u : String) (resp : PayResp) : Bool :=
  (resp.pstatus == "CONFIRMED" || resp.pstatus == "RECEIVED")
    && ((resp.ref.getD ⟨none, none, none⟩).userId == some u)
    && ((resp.ref.getD ⟨none, none, none⟩).rkind == some "deposit")

/-- The handler of `asaas-check-payment/index.ts` invoked by authenticated
user `u` for payment `paymentId`, with `resp` the gateway's answer: when the
payment is confirmed and its reference names `u` as a deposit, it credits the
value unless a prior deposit transaction already records the payment id in
its description; in every case it returns the gateway status. -/
def checkPayment (db : DB) (u : String) (paymentId : String) (resp : PayResp) :
    CPResult :=
  if paymentId == "" then .err db
  else if resp.errors then .err db
  else
    let db' :=
      if creditGuard u resp then
        match findSingle (depositTxMatches u paymentId) db.transactions with
        | some _ => db
        | none =>
          match getProfile db u with
          | some p =>
            let newBalance := p.balance + resp.value
            { db with
              profiles := setBalance db.profiles u newBalance,
              transactions := txInsert db.transactions
                ⟨u, none, "deposit", resp.value,
                 "Depósito via " ++ resp.billingType ++ " - Asaas #" ++ paymentId⟩ }
          | none => db
      else db
    .ok db' resp.pstatus resp.value resp.billingType

/-! ## Withdrawal settlement (`asaas-create-withdrawal/index.ts`) -/

/-- The error kinds thrown by the withdrawal handler before any write
("Valor mínimo para saque é R$ 10,00", "Apenas vendedores podem solicitar
saques", "Saldo insuficiente"). -/
inductive WdError where
  | invalidAmount
  | notASeller
  | insufficientBalance
deriving DecidableEq

/-- Outcome of the best-effort `POST /transfers` gateway call:
`responded b` — the call returned a JSON body which has an `id` field iff
`b`; `threw` — the call raised (network failure / timeout), which the
handler catches. -/
inductive TransferOutcome where
  | responded : Bool → TransferOutcome
  | threw : TransferOutcome
deriving DecidableEq

/-- Result of the withdrawal handler: `err` is a thrown validation error
(HTTP 400) carrying the store as it stands at the throw; `ok` is the success
response carrying the final store and the created withdrawal's id. -/
inductive WdResult where
  | err : WdError → DB → WdResult
  | ok : DB → Nat → WdResult
deriving DecidableEq

/-- The handler of `asaas-create-withdrawal/index.ts` for authenticated user
`u` requesting a gross `amount`, with `gw` the gateway transfer outcome:
validates minimum amount, seller registration and gross-amount balance; then
inserts a pending withdrawal recording the net (gross less the 5% fee),
debits the seller the full gross, credits the fee to the first admin account
when one exists (its `type = 'fee'` transaction insert is rejected by the
CHECK constraint and the error ignored), records the seller's withdrawal
transaction, and finally marks the withdrawal approved only when the gateway
response carries an id — returning success regardless of the gateway
outcome.  The JS arithmetic is exact; every value stored into a
`DECIMAL(10,2)` column (`withdrawals.amount`, `profiles.balance`,
`transactions.amount`) is rounded to scale 2 by the store (`pgRound2`). -/
def createWithdrawal (db : DB) (u : String) (amount : ℚ) (gw : TransferOutcome) :
    WdResult :=
  if amount = 0 ∨ amount < 10 then .err .invalidAmount db
  else
    let adminFee := amount * (5 / 100)
    let netAmount := amount - adminFee
    match findSingle (fun s => s.user_id == u) db.sellers with
    | none => .err .notASeller db
    | some seller =>
      match getProfile db u with
      | none => .err .insufficientBalance db
      | some profile =>
        if profile.balance < amount then .err .insufficientBalance db
        else
          let adminRole := adminUserId db
          let wid := db.withdrawals.length
          let db1 := { db with withdrawals :=
            db.withdrawals ++
              [(⟨wid, seller.sid, pgRound2 netAmount, "pending"⟩ : Withdrawal)] }
          let newBalance := profile.balance - amount
          let db2 := { db1 with
            profiles := setBalance db1.profiles u (pgRound2 newBalance) }
          let db3 :=
            match adminRole with
            | some aid =>
              match getProfile db2 aid with
              | some adminProfile =>
                let newAdminBalance := adminProfile.balance + adminFee
                let dbA := { db2 with
                  profiles := setBalance db2.profiles aid (pgRound2 newAdminBalance) }
                { dbA with transactions :=
                    txInsert dbA.transactions ⟨aid, none, "fee", pgRound2 adminFee,
                      "Taxa de saque (5%) - Seller " ++ seller.sid⟩ }
              | none => db2
            | none => db2
          let db4 :=
            { db3 with transactions :=
                txInsert db3.transactions ⟨u, none, "withdrawal", pgRound2 (-amount),
                  "Solicitação de saque via PIX"⟩ }
          let db5 :=
            match gw with
            | .responded true =>
              { db4 with withdrawals := db4.withdrawals.map fun w =>
                  if w.wid == wid then { w with status := "approved" } else w }
            | _ => db4
          .ok db5 wid

/-- Projection: the final store of a successful withdrawal request. -/
def wdOkDB : WdResult → Option DB
  | .ok db _ => some db
  | .err _ _ => none

/-! ## Purchase / order creation (the Purchase page's `handlePurchase`) -/

/-- Function `calculateTotal` from the Purchase page:
`(robuxAmount / 1000) * Number(seller.price_per_1k)` — real JS division,
no rounding. -/
def calculateTotal (robuxAmount : ℤ) (pricePer1k : ℚ) : ℚ :=
  ((robuxAmount : ℚ) / 1000) * pricePer1k

/-- The distinct failure modes of `handlePurchase`: the two validation
toasts, and the two store write failures that are caught and surfaced as the
"Erro ao criar pedido" toast. -/
inductive POError where
  | notFound
  | invalidQuantity
  | insufficientBalance
  | orderInsertFailed
  | balanceUpdateFailed
deriving DecidableEq

/-- Infrastructure oracle for the three sequential store writes of
`handlePurchase` (there is no enclosing database transaction in the source:
each write independently succeeds or fails). -/
structure StepOracle where
  orderInsertOk : Bool
  balanceUpdateOk : Bool
  txInsertOk : Bool
deriving DecidableEq

/-- Result of `handlePurchase`: `err` carries the store as it stands when the
handler stops with an error toast; `ok` carries the final store and the new
order's id. -/
inductive POResult where
  | err : POError → DB → POResult
  | ok : DB → Nat → POResult
deriving DecidableEq

/-- Function `handlePurchase` from the Purchase page for buyer `u` at seller `sellerId`
requesting `robux` units (`none` = `parseInt` returned `NaN`): validates the
quantity against `[min_amount, max_amount]`, computes the exact total,
validates the buyer's balance against the exact total, then sequentially
inserts the order row (status `pending`), updates the buyer's balance, and
inserts the purchase transaction — the transaction insert's error being
ignored.  The JS arithmetic is exact; every value stored into a
`DECIMAL(10,2)` column (`orders.total_price`, `profiles.balance`,
`transactions.amount`) is rounded to scale 2 by the store (`pgRound2`). -/
def handlePurchase (db : DB) (u : String) (sellerId : String)
    (robux : Option ℤ) (deliveryMethod : String) (orc : StepOracle) : POResult :=
  match findSingle (fun s => s.sid == sellerId) db.sellers with
  | none => .err .notFound db
  | some seller =>
    match getProfile db u with
    | none => .err .notFound db
    | some profile =>
      match robux with
      | none => .err .invalidQuantity db
      | some robuxAmount =>
        if robuxAmount < seller.min_amount ∨ seller.max_amount < robuxAmount then
          .err .invalidQuantity db
        else
          let totalPrice := calculateTotal robuxAmount seller.price_per_1k
          if profile.balance < totalPrice then .err .insufficientBalance db
          else if !orc.orderInsertOk then .err .orderInsertFailed db
          else
            let oid := db.orders.length
            let db1 := { db with orders :=
              db.orders ++ [⟨oid, u, seller.sid, robuxAmount, pgRound2 totalPrice,
                deliveryMethod, "pending"⟩] }
            if !orc.balanceUpdateOk then .err .balanceUpdateFailed db1
            else
              let db2 := { db1 with
                profiles := setBalance db1.profiles u
                  (pgRound2 (profile.balance - totalPrice)) }
              let db3 :=
                if orc.txInsertOk then
                  { db2 with transactions :=
                      txInsert db2.transactions ⟨u, some oid, "purchase",
                        pgRound2 (-totalPrice), "Compra de Robux"⟩ }
                else db2
              .ok db3 oid

/-- Projection: the final store of a successful purchase. -/
def poOkDB : POResult → Option DB
  | .ok db _ => some db
  | .err _ _ => none

/-- Projection: the store carried by a failed purchase (the state the handler
leaves behind when its error toast is shown). -/
def poErrDB : POResult → Option DB
  | .ok _ _ => none
  | .err _ db => some db

/-! ## Fixtures used by the claim theorems -/

/-- A single-account ledger: one profile `u` with balance `b` and transaction
history `ts`. -/
def pullDB (u : String) (b : ℚ) (ts : List Txn) : DB := ⟨[⟨u, b⟩], [], [], ts, [], []⟩

/-- A confirmed gateway answer for a deposit of `V` referencing user `u`. -/
def depositResp (u : String) (V : ℚ) (bt : String) : PayResp :=
  ⟨false, "CONFIRMED", V, bt, some ⟨some u, some "deposit", none⟩⟩

/-- A confirmed webhook payment object for a deposit of `V` referencing `u`. -/
def depositPay (u pid : String) (V : ℚ) (bt : String) : PaymentEvent :=
  ⟨pid, V, bt, some ⟨some u, some "deposit", none⟩⟩

/-- The deposit transaction row both confirmation paths insert: its
description embeds the gateway payment id after `Asaas #`. -/
def pullTx (u pid : String) (V : ℚ) (bt : String) : Txn :=
  ⟨u, none, "deposit", V, "Depósito via " ++ bt ++ " - Asaas #" ++ pid⟩

/-- The store for the double-delivery counterexample: account `u1`, balance
0, empty transaction history. -/
def dcDB : DB := ⟨[⟨"u1", 0⟩], [], [], [], [], []⟩

/-- Two-account ledger for the withdrawal claims: seller user `u` (balance
`b`, seller row `s1`) and admin user `a` (balance `ab`, admin role);
transaction history `ts`. -/
def wdDB (u a : String) (b ab : ℚ) (ts : List Txn) : DB :=
  ⟨[⟨u, b⟩, ⟨a, ab⟩], [⟨"s1", u, 1, 1, 1⟩], [], ts, [], [(a, "admin")]⟩

/-- Single-account ledger for the no-admin withdrawal claim: seller user `u`
with balance `b`, no admin role row. -/
def wdDBnoAdmin (u : String) (b : ℚ) (ts : List Txn) : DB :=
  ⟨[⟨u, b⟩], [⟨"s1", u, 1, 1, 1⟩], [], ts, [], []⟩

/-- Concrete store for the reconciliation claim: seller `su` with balance
100 backed by a 100.00 deposit transaction, admin `au` with balance 0 and no
transactions — the reconciliation invariant holds. -/
def c2DB : DB :=
  wdDB "su" "au" 100 0 [⟨"su", none, "deposit", 100, "Depósito via PIX - Asaas #pay_0"⟩]

/-- Ledger for the purchase claims: buyer `u` with balance `b`, one seller
row `s1` (user `sell1`, price `p1k` per 1000, bounds `[mn, mx]`). -/
def poDB (u : String) (b : ℚ) (p1k : ℚ) (mn mx : ℤ) : DB :=
  ⟨[⟨u, b⟩], [⟨"s1", "sell1", p1k, mn, mx⟩], [], [], [], []⟩

/-! ## Supporting lemmas -/

/-- Lookup `findSingle` answers `some x` exactly when the filter keeps exactly the
row `x`. -/
theorem findSingle_eq_some_iff (p : α → Bool) (l : List α) (x : α) :
    findSingle p l = some x ↔ l.filter p = [x] := by
  unfold findSingle
  cases h : l.filter p with
  | nil => simp
  | cons a t =>
    cases t with
    | nil => simp
    | cons b t' => simp

/-- A pattern occurs in any character list that ends with it. -/
theorem listOccurs_append_self (pat a : List Char) :
    listOccurs pat (a ++ pat) = true := by
  unfold listOccurs
  refine List.any_eq_true.mpr ⟨a.length, List.mem_range.mpr ?_, ?_⟩
  · simp only [List.length_append]
    omega
  · rw [List.drop_left, List.take_length]
    simp

/-- A string that ends with `pid` contains `pid`. -/
theorem strContains_append_self (a pid : String) :
    strContains (a ++ pid) pid = true := by
  unfold strContains
  rw [String.data_append]
  exact listOccurs_append_self pid.data a.data

/-- Scale-2 rounding is the identity on whole-cent values. -/
theorem pgRound2_int_div (k : ℤ) : pgRound2 ((k : ℚ) / 100) = (k : ℚ) / 100 := by
  unfold pgRound2
  have h100 : ((k : ℚ) / 100) * 100 = (k : ℚ) := by
    field_simp
  by_cases h : (0 : ℚ) ≤ (k : ℚ) / 100
  · rw [if_pos h, h100]
    rw [show ⌊(k : ℚ) + 1 / 2⌋ = k + ⌊(1 : ℚ) / 2⌋ from Int.floor_int_add k (1 / 2)]
    norm_num
  · rw [if_neg h]
    have h100' : -((k : ℚ) / 100) * 100 = ((-k : ℤ) : ℚ) := by
      push_cast
      field_simp
    rw [h100']
    rw [show ⌊((-k : ℤ) : ℚ) + 1 / 2⌋ = -k + ⌊(1 : ℚ) / 2⌋ from Int.floor_int_add (-k) (1 / 2)]
    push_cast
    ring_nf

/-- Scale-2 rounding fixes every two-decimal value. -/
theorem twoDec.pgRound2_eq {x : ℚ} (h : twoDec x) : pgRound2 x = x := by
  obtain ⟨k, rfl⟩ := h
  exact pgRound2_int_div k

/-- Two-decimal values are closed under subtraction. -/
theorem twoDec.sub {x y : ℚ} (hx : twoDec x) (hy : twoDec y) : twoDec (x - y) := by
  obtain ⟨k, rfl⟩ := hx
  obtain ⟨m, rfl⟩ := hy
  exact ⟨k - m, by push_cast; ring⟩

/-- Two-decimal values are closed under negation. -/
theorem twoDec.neg {x : ℚ} (hx : twoDec x) : twoDec (-x) := by
  obtain ⟨k, rfl⟩ := hx
  exact ⟨-k, by push_cast; ring⟩

/-- Adding a nonnegative quantity to a nonnegative two-decimal value and then
rounding to scale 2 rounds only the added part: the stored result is the old
value plus the rounded increment. -/
theorem pgRound2_add_twoDec {c x : ℚ} (hc : twoDec c) (hc0 : 0 ≤ c) (hx : 0 ≤ x) :
    pgRound2 (c + x) = c + pgRound2 x := by
  obtain ⟨m, rfl⟩ := hc
  unfold pgRound2
  rw [if_pos (add_nonneg hc0 hx), if_pos hx]
  have harg : ((m : ℚ) / 100 + x) * 100 + 1 / 2 = (m : ℚ) + (x * 100 + 1 / 2) := by
    field_simp
    ring
  rw [harg, Int.floor_int_add m (x * 100 + 1 / 2)]
  push_cast
  ring

/-- A balance update commutes with an id filter: updating the balance of `u`
does not change which rows an id filter keeps, only their balance fields. -/
theorem filter_setBalance (ps : List Profile) (u v : String) (b : ℚ) :
    (setBalance ps u b).filter (fun p => p.id == v) =
      (ps.filter (fun p => p.id == v)).map
        (fun p => if p.id == u then { p with balance := b } else p) := by
  unfold setBalance
  rw [List.filter_map]
  congr 1
  apply List.filter_congr
  intro x _
  by_cases h : x.id = u <;> simp [h]

/-- Looking up a profile after updating its balance returns the updated
row. -/
theorem findSingle_profile_setBalance (ps : List Profile) (u : String) (b : ℚ)
    (p : Profile) (hp : findSingle (fun q => q.id == u) ps = some p) :
    findSingle (fun q => q.id == u) (setBalance ps u b) =
      some { p with balance := b } := by
  rw [findSingle_eq_some_iff] at hp ⊢
  rw [filter_setBalance, hp]
  have hpu : p.id = u := by
    have hmem : p ∈ ps.filter (fun q => q.id == u) := by
      rw [hp]
      exact List.mem_singleton.mpr rfl
    simpa using (List.mem_filter.mp hmem).2
  simp [hpu]

/-! ## Deposit-settlement claims (C1, C10) -/

/-- The inserted deposit row is found by the pull path's dedup filter for the
same user and payment id. -/
theorem depositTxMatches_pullTx (u pid : String) (V : ℚ) (bt : String) :
    depositTxMatches u pid (pullTx u pid V bt) = true := by
  unfold depositTxMatches pullTx
  simp [strContains_append_self]

/-- C1, counterexample: two webhook deliveries of the same confirmed 20.00
payment `pay_1` leave account `u1` at balance 40, not 20 — the push path
performs no prior-transaction check, so deposit confirmation is not
idempotent as claimed. -/
theorem webhook_double_delivery_double_credits :
    profileBalance
        (webhook (webhook dcDB "PAYMENT_CONFIRMED" (depositPay "u1" "pay_1" 20 "PIX"))
          "PAYMENT_CONFIRMED" (depositPay "u1" "pay_1" 20 "PIX")) "u1" = some 40 ∧
      profileBalance dcDB "u1" = some 0 ∧ (40 : ℚ) ≠ 0 + 20 := by
  refine ⟨?_, ?_, by norm_num⟩
  · simp only [webhook, dcDB, depositPay, getProfile, findSingle, setBalance, txInsert,
      txTypeAllowed]
    norm_num
    all_goals simp [profileBalance, getProfile, findSingle]
    all_goals norm_num
  · simp [profileBalance, dcDB, getProfile, findSingle]

/-- C1 (amended): only the pull path deduplicates.  Starting from a ledger
whose history records nothing for payment `pid`: the pull path credits `V`
and inserts the marker transaction; a second pull, or a pull after a webhook
delivery, is a no-op; but each webhook delivery credits `V` again
unconditionally. -/
theorem deposit_confirmation_partial_idempotence (u pid bt : String) (b V : ℚ)
    (ts : List Txn)
    (hpid : (pid == "") = false)
    (hts : ts.filter (depositTxMatches u pid) = []) :
    checkPayment (pullDB u b ts) u pid (depositResp u V bt) =
        .ok (pullDB u (b + V) (ts ++ [pullTx u pid V bt])) "CONFIRMED" V bt ∧
      checkPayment (pullDB u (b + V) (ts ++ [pullTx u pid V bt])) u pid
          (depositResp u V bt) =
        .ok (pullDB u (b + V) (ts ++ [pullTx u pid V bt])) "CONFIRMED" V bt ∧
      webhook (pullDB u b ts) "PAYMENT_CONFIRMED" (depositPay u pid V bt) =
        pullDB u (b + V) (ts ++ [pullTx u pid V bt]) ∧
      webhook (pullDB u (b + V) (ts ++ [pullTx u pid V bt])) "PAYMENT_CONFIRMED"
          (depositPay u pid V bt) =
        pullDB u (b + V + V) (ts ++ [pullTx u pid V bt] ++ [pullTx u pid V bt]) := by
  refine ⟨?_, ?_, ?_, ?_⟩
  · simp [checkPayment, pullDB, depositResp, creditGuard, findSingle, getProfile,
      setBalance, txInsert, txTypeAllowed, pullTx, hts, hpid]
  · simp [checkPayment, pullDB, depositResp, creditGuard, findSingle, getProfile,
      setBalance, txInsert, txTypeAllowed, hts, hpid, List.filter_append,
      depositTxMatches_pullTx]
  · simp [webhook, pullDB, depositPay, getProfile, findSingle, setBalance, txInsert,
      txTypeAllowed, pullTx]
  · simp [webhook, pullDB, depositPay, getProfile, findSingle, setBalance, txInsert,
      txTypeAllowed, pullTx]

/-- C1, witness: the amended idempotence statement at account `u1`, payment
`pay_1`, value 20, empty history. -/
theorem deposit_confirmation_partial_idempotence_witness :
    checkPayment (pullDB "u1" 0 []) "u1" "pay_1" (depositResp "u1" 20 "PIX") =
        .ok (pullDB "u1" (0 + 20) ([] ++ [pullTx "u1" "pay_1" 20 "PIX"])) "CONFIRMED" 20 "PIX" ∧
      checkPayment (pullDB "u1" (0 + 20) ([] ++ [pullTx "u1" "pay_1" 20 "PIX"])) "u1" "pay_1"
          (depositResp "u1" 20 "PIX") =
        .ok (pullDB "u1" (0 + 20) ([] ++ [pullTx "u1" "pay_1" 20 "PIX"])) "CONFIRMED" 20 "PIX" ∧
      webhook (pullDB "u1" 0 []) "PAYMENT_CONFIRMED" (depositPay "u1" "pay_1" 20 "PIX") =
        pullDB "u1" (0 + 20) ([] ++ [pullTx "u1" "pay_1" 20 "PIX"]) ∧
      webhook (pullDB "u1" (0 + 20) ([] ++ [pullTx "u1" "pay_1" 20 "PIX"])) "PAYMENT_CONFIRMED"
          (depositPay "u1" "pay_1" 20 "PIX") =
        pullDB "u1" (0 + 20 + 20)
          ([] ++ [pullTx "u1" "pay_1" 20 "PIX"] ++ [pullTx "u1" "pay_1" 20 "PIX"]) :=
  deposit_confirmation_partial_idempotence "u1" "pay_1" "PIX" 0 20 [] (by decide) rfl

/-- C10: whenever the crediting guard of the pull path does not hold — the
gateway does not report the payment confirmed/received, or the external
reference does not name the calling user with kind "deposit" — the status
check returns the gateway's status/value/billingType and leaves the entire
store (balances and transactions included) unchanged. -/
theorem check_payment_owner_restriction (db : DB) (u pid : String) (resp : PayResp)
    (hpid : (pid == "") = false)
    (herr : resp.errors = false)
    (hguard : creditGuard u resp = false) :
    checkPayment db u pid resp = .ok db resp.pstatus resp.value resp.billingType := by
  unfold checkPayment
  rw [hpid, hguard]
  simp [herr]

/-- C10, witness: user `u2` checking `u1`'s confirmed deposit gets the
status echoed and changes nothing. -/
theorem check_payment_owner_restriction_witness :
    checkPayment dcDB "u2" "pay_1" (depositResp "u1" 20 "PIX") =
      .ok dcDB "CONFIRMED" 20 "PIX" :=
  check_payment_owner_restriction dcDB "u2" "pay_1" (depositResp "u1" 20 "PIX")
    (by decide) rfl (by decide)

/-! ## Withdrawal-settlement claims (C2 – C6) -/

/-- C2: the reconciliation invariant is broken by the withdrawal fee credit.
From a store satisfying the invariant, a withdrawal of 50.00 leaves the
admin account with balance 2.50 but transaction sum 0: the `type = 'fee'`
row the code inserts violates the `transactions.type` CHECK constraint
(`'fee'` is not among the allowed values) and the unchecked insert error
drops the row while the balance credit stands. -/
theorem fee_row_rejected_breaks_reconciliation :
    ledgerInv c2DB = true ∧
      (wdOkDB (createWithdrawal c2DB "su" 50 .threw)).map ledgerInv = some false ∧
      (wdOkDB (createWithdrawal c2DB "su" 50 .threw)).bind
          (fun db => profileBalance db "au") = some (5 / 2) ∧
      (wdOkDB (createWithdrawal c2DB "su" 50 .threw)).map
          (fun db => txnSum db "au") = some 0 ∧
      txTypeAllowed "fee" = false := by
  refine ⟨?_, ?_, ?_, ?_, by decide⟩
  · norm_num [ledgerInv, c2DB, wdDB, txnSum]
    all_goals simp
  all_goals
    simp only [createWithdrawal, c2DB, wdDB, adminUserId, getProfile, findSingle,
      setBalance, txInsert, txTypeAllowed]
    norm_num
    all_goals simp [wdOkDB, ledgerInv, txnSum, profileBalance, getProfile, findSingle]
    all_goals try norm_num [pgRound2]
    all_goals try simp
    all_goals try norm_num [pgRound2]

/-- C3, counterexample: the accepted gross 10.01 from a seller with balance
100.00 and an admin at balance 0 records net 9.51 = round2(10.01 · 0.95) as
the claim says, but the admin's stored balance becomes 0.50 — the exact fee
0.5005 is rounded by the `DECIMAL(10,2)` balance column — so the platform
does not gain `G · 0.05`. -/
theorem withdrawal_fee_credit_rounded :
    (wdOkDB (createWithdrawal (wdDB "su" "au" 100 0 []) "su" (1001 / 100) .threw)).bind
        (fun db => profileBalance db "au") = some (1 / 2) ∧
      (1 / 2 : ℚ) ≠ 0 + (1001 / 100) * (5 / 100) ∧
      (wdOkDB (createWithdrawal (wdDB "su" "au" 100 0 []) "su" (1001 / 100) .threw)).bind
        (fun db => wdAmount db 0) = some (951 / 100) := by
  refine ⟨?_, by norm_num, ?_⟩ <;>
    · simp only [createWithdrawal, wdDB, adminUserId, getProfile, findSingle, setBalance,
        txInsert, txTypeAllowed]
      norm_num [pgRound2]
      all_goals simp [wdOkDB, wdAmount, profileBalance, getProfile, findSingle]
      all_goals try norm_num [pgRound2]
      all_goals try simp
      all_goals try norm_num

set_option maxHeartbeats 1000000 in
/-- C3 (amended): for every accepted withdrawal of a two-decimal gross `G`
from two-decimal balances, the recorded net is `G · 0.95` rounded to 2
decimals by the `withdrawals.amount` column, the seller's balance decreases
by exactly `G`, and the admin account's balance increases by `G · 0.05`
rounded to 2 decimals by the `profiles.balance` column. -/
theorem withdrawal_fee_law (u a : String) (b ab G : ℚ) (ts : List Txn)
    (gw : TransferOutcome) (hau : a ≠ u) (hG : 10 ≤ G) (hbG : G ≤ b)
    (hb2 : twoDec b) (hG2 : twoDec G) (hab2 : twoDec ab) (hab0 : 0 ≤ ab) :
    ∃ db', createWithdrawal (wdDB u a b ab ts) u G gw = .ok db' 0 ∧
      wdAmount db' 0 = some (pgRound2 (G * (95 / 100))) ∧
      profileBalance db' u = some (b - G) ∧
      profileBalance db' a = some (ab + pgRound2 (G * (5 / 100))) := by
  have hc1 : ¬(G = 0 ∨ G < 10) := by rintro (rfl | h) <;> linarith
  have hc2 : ¬(b < G) := not_lt.mpr hbG
  have hua : u ≠ a := Ne.symm hau
  rcases gw with hasId | _ <;> try cases hasId
  all_goals
    simp only [createWithdrawal, wdDB, adminUserId, getProfile, findSingle, setBalance,
      txInsert, txTypeAllowed]
  all_goals simp [hc1, hc2, hau, hua]
  all_goals
    refine ⟨?_, ?_, ?_⟩ <;>
      norm_num [wdAmount, profileBalance, getProfile, findSingle, hau, hua]
  all_goals
    first
    | exact (hb2.sub hG2).pgRound2_eq
    | exact pgRound2_add_twoDec hab2 hab0 (mul_nonneg (by linarith) (by norm_num))
    | (congr 1; ring)

/-- C3, witness: the spec scenario — seller balance 100.00 withdraws gross
50.00: net 47.50 recorded, seller balance 50.00, admin balance 2.50. -/
theorem withdrawal_fee_law_witness :
    ∃ db', createWithdrawal (wdDB "su" "au" 100 0 []) "su" 50 .threw = .ok db' 0 ∧
      wdAmount db' 0 = some (95 / 2) ∧
      profileBalance db' "su" = some 50 ∧
      profileBalance db' "au" = some (5 / 2) := by
  obtain ⟨db', h1, h2, h3, h4⟩ := withdrawal_fee_law "su" "au" 100 0 50 [] .threw
    (by decide) (by norm_num) (by norm_num) ⟨10000, by norm_num⟩ ⟨5000, by norm_num⟩
    ⟨0, by norm_num⟩ le_rfl
  refine ⟨db', h1, ?_, ?_, ?_⟩
  · rw [h2]
    norm_num [pgRound2]
  · rw [h3]
    norm_num
  · rw [h4]
    norm_num [pgRound2]

/-- C4: each validation failure of the withdrawal handler — gross below the
10-unit minimum, missing seller registration, balance below the gross —
rejects with the corresponding error and returns the store unchanged (no
balance mutation, no withdrawal row, no transaction row). -/
theorem withdrawal_validation_rejections (db : DB) (u : String) (amount : ℚ)
    (gw : TransferOutcome) :
    ((amount = 0 ∨ amount < 10) →
        createWithdrawal db u amount gw = .err .invalidAmount db) ∧
      (¬(amount = 0 ∨ amount < 10) →
        findSingle (fun s => s.user_id == u) db.sellers = none →
        createWithdrawal db u amount gw = .err .notASeller db) ∧
      (¬(amount = 0 ∨ amount < 10) →
        (∃ sel, findSingle (fun s => s.user_id == u) db.sellers = some sel) →
        (∀ p, getProfile db u = some p → p.balance < amount) →
        createWithdrawal db u amount gw = .err .insufficientBalance db) := by
  refine ⟨fun h => ?_, fun h hsel => ?_, fun h hsel hbal => ?_⟩
  · simp [createWithdrawal, h]
  · simp [createWithdrawal, h, hsel]
  · obtain ⟨sel, hsel⟩ := hsel
    cases hp : getProfile db u with
    | none => simp [createWithdrawal, h, hsel, hp]
    | some p => simp [createWithdrawal, h, hsel, hp, hbal p hp]

/-- C4, witness: the three rejections at concrete inputs — gross 5 is below
the minimum; a user with no seller row; a seller whose balance 5 is below
the gross 20 — each leaving the store untouched. -/
theorem withdrawal_validation_rejections_witness :
    createWithdrawal (pullDB "u1" 0 []) "u1" 5 .threw =
        .err .invalidAmount (pullDB "u1" 0 []) ∧
      createWithdrawal (pullDB "u1" 50 []) "u1" 20 .threw =
        .err .notASeller (pullDB "u1" 50 []) ∧
      createWithdrawal (wdDBnoAdmin "u1" 5 []) "u1" 20 .threw =
        .err .insufficientBalance (wdDBnoAdmin "u1" 5 []) := by
  refine ⟨?_, ?_, ?_⟩
  · exact (withdrawal_validation_rejections (pullDB "u1" 0 []) "u1" 5 .threw).1
      (by norm_num)
  · exact (withdrawal_validation_rejections (pullDB "u1" 50 []) "u1" 20 .threw).2.1
      (by norm_num) rfl
  · have hsel : ∃ sel, findSingle (fun s => s.user_id == "u1")
        (wdDBnoAdmin "u1" 5 []).sellers = some sel := ⟨_, rfl⟩
    refine (withdrawal_validation_rejections (wdDBnoAdmin "u1" 5 []) "u1" 20 .threw).2.2
      (by norm_num) hsel fun p hp => ?_
    have hp' : some (⟨"u1", (5 : ℚ)⟩ : Profile) = some p := by
      rw [← hp]
      rfl
    cases hp'
    norm_num

set_option maxHeartbeats 1000000 in
/-- C5: once validation passes, the ledger debit and fee credit are
authoritative and the request returns success whatever the gateway does: a
transfer response carrying an id advances the withdrawal to `approved`; a
response without an id, or a thrown transfer call, leaves it `pending`; in
all three cases the seller's debit and the admin's fee credit stand. -/
theorem withdrawal_fail_forward (u a : String) (b ab G : ℚ) (ts : List Txn)
    (gw : TransferOutcome) (hau : a ≠ u) (hG : 10 ≤ G) (hbG : G ≤ b)
    (hb2 : twoDec b) (hG2 : twoDec G) (hab2 : twoDec ab) (hab0 : 0 ≤ ab) :
    ∃ db', createWithdrawal (wdDB u a b ab ts) u G gw = .ok db' 0 ∧
      wdStatus db' 0 = some (match gw with
        | .responded true => "approved"
        | _ => "pending") ∧
      profileBalance db' u = some (b - G) ∧
      profileBalance db' a = some (ab + pgRound2 (G * (5 / 100))) := by
  have hc1 : ¬(G = 0 ∨ G < 10) := by rintro (rfl | h) <;> linarith
  have hc2 : ¬(b < G) := not_lt.mpr hbG
  have hua : u ≠ a := Ne.symm hau
  rcases gw with hasId | _ <;> try cases hasId
  all_goals
    simp only [createWithdrawal, wdDB, adminUserId, getProfile, findSingle, setBalance,
      txInsert, txTypeAllowed]
  all_goals simp [hc1, hc2, hau, hua]
  all_goals
    refine ⟨?_, ?_, ?_⟩ <;>
      norm_num [wdStatus, profileBalance, getProfile, findSingle, hau, hua]
  all_goals
    first
    | exact (hb2.sub hG2).pgRound2_eq
    | exact pgRound2_add_twoDec hab2 hab0 (mul_nonneg (by linarith) (by norm_num))

/-- C5, witness: the fail-forward statement at the concrete scenario, for a
gateway response without an id (stays `pending`, debit and fee stand,
success returned). -/
theorem withdrawal_fail_forward_witness :
    ∃ db', createWithdrawal (wdDB "su" "au" 100 0 []) "su" 50 (.responded false) =
        .ok db' 0 ∧
      wdStatus db' 0 = some "pending" ∧
      profileBalance db' "su" = some 50 ∧
      profileBalance db' "au" = some (5 / 2) := by
  obtain ⟨db', h1, h2, h3, h4⟩ := withdrawal_fail_forward "su" "au" 100 0 50 []
    (.responded false) (by decide) (by norm_num) (by norm_num) ⟨10000, by norm_num⟩
    ⟨5000, by norm_num⟩ ⟨0, by norm_num⟩ le_rfl
  refine ⟨db', h1, h2, ?_, ?_⟩
  · rw [h3]
    norm_num
  · rw [h4]
    norm_num [pgRound2]

set_option maxHeartbeats 1000000 in
/-- C6: when no admin-role row exists, an accepted withdrawal still debits
the seller the full gross and records the net (fee still computed), but the
fee is credited to no account — the profile table ends with only the
seller's debited row — and the only transaction appended is the seller's
withdrawal row (no fee row); the request succeeds. -/
theorem withdrawal_fee_dropped_without_admin (u : String) (b G : ℚ) (ts : List Txn)
    (gw : TransferOutcome) (hG : 10 ≤ G) (hbG : G ≤ b)
    (hb2 : twoDec b) (hG2 : twoDec G) :
    ∃ db', createWithdrawal (wdDBnoAdmin u b ts) u G gw = .ok db' 0 ∧
      wdAmount db' 0 = some (pgRound2 (G - G * (5 / 100))) ∧
      db'.profiles = [⟨u, b - G⟩] ∧
      db'.transactions =
        ts ++ [⟨u, none, "withdrawal", -G, "Solicitação de saque via PIX"⟩] := by
  have hc1 : ¬(G = 0 ∨ G < 10) := by rintro (rfl | h) <;> linarith
  have hc2 : ¬(b < G) := not_lt.mpr hbG
  rcases gw with hasId | _ <;> try cases hasId
  all_goals
    simp only [createWithdrawal, wdDBnoAdmin, adminUserId, getProfile, findSingle,
      setBalance, txInsert, txTypeAllowed]
  all_goals simp [hc1, hc2, wdAmount, findSingle]
  all_goals try norm_num
  all_goals try refine ⟨?_, ?_, ?_⟩
  all_goals try refine ⟨?_, ?_⟩
  all_goals
    first
    | exact (hb2.sub hG2).pgRound2_eq
    | exact hG2.neg.pgRound2_eq
    | rfl
    | (congr 1; ring)

/-- C6, witness: the no-admin fee drop at gross 50 from balance 100. -/
theorem withdrawal_fee_dropped_without_admin_witness :
    ∃ db', createWithdrawal (wdDBnoAdmin "su" 100 []) "su" 50 .threw = .ok db' 0 ∧
      wdAmount db' 0 = some (95 / 2) ∧
      db'.profiles = [⟨"su", 50⟩] ∧
      db'.transactions =
        [⟨"su", none, "withdrawal", -50, "Solicitação de saque via PIX"⟩] := by
  obtain ⟨db', h1, h2, h3, h4⟩ := withdrawal_fee_dropped_without_admin "su" 100 50 []
    .threw (by norm_num) (by norm_num) ⟨10000, by norm_num⟩ ⟨5000, by norm_num⟩
  refine ⟨db', h1, ?_, ?_, ?_⟩
  · rw [h2]
    norm_num [pgRound2]
  · rw [h3]
    norm_num
  · rw [h4]
    norm_num

/-! ## Purchase / order claims (C7 – C9) -/

/-- C7: the quantity validation of `handlePurchase` — an order for `n` units
is rejected with `InvalidQuantity` exactly when `n` lies outside the closed
interval `[min_amount, max_amount]`; in particular `n = max_amount` succeeds
given sufficient balance, and `n = max_amount + 1` is rejected with the
store unchanged. -/
theorem purchase_quantity_boundary (db : DB) (u sid dm : String) (s : Seller)
    (p : Profile) (orc : StepOracle) (n : ℤ)
    (hs : findSingle (fun x => x.sid == sid) db.sellers = some s)
    (hp : getProfile db u = some p)
    (hmm : s.min_amount ≤ s.max_amount)
    (hbmax : ¬(p.balance < calculateTotal s.max_amount s.price_per_1k)) :
    (handlePurchase db u sid (some n) dm orc = .err .invalidQuantity db ↔
        n < s.min_amount ∨ s.max_amount < n) ∧
      (∃ db', handlePurchase db u sid (some s.max_amount) dm ⟨true, true, true⟩ =
        .ok db' db.orders.length) ∧
      handlePurchase db u sid (some (s.max_amount + 1)) dm orc =
        .err .invalidQuantity db := by
  refine ⟨?_, ?_, ?_⟩
  · by_cases hq : n < s.min_amount ∨ s.max_amount < n
    · simp [handlePurchase, hs, hp, hq]
    · simp [handlePurchase, hs, hp, hq]
      split_ifs <;> simp
  · have hq1 : ¬(s.max_amount < s.min_amount) := by omega
    simp [handlePurchase, hs, hp, hq1, hbmax]
  · have hq : s.max_amount < s.min_amount ∨ s.max_amount < s.max_amount + 1 := by omega
    simp [handlePurchase, hs, hp, hq]

/-- C7, witness: seller bounds `[100, 10000]`, price 5 per 1000, buyer
balance 100: quantity 500 is accepted by the boundary test, 10000 succeeds,
10001 is rejected. -/
theorem purchase_quantity_boundary_witness :
    (handlePurchase (poDB "buyer" 100 5 100 10000) "buyer" "s1" (some 500) "gamepass"
          ⟨true, true, true⟩ = .err .invalidQuantity (poDB "buyer" 100 5 100 10000) ↔
        (500 : ℤ) < 100 ∨ (10000 : ℤ) < 500) ∧
      (∃ db', handlePurchase (poDB "buyer" 100 5 100 10000) "buyer" "s1" (some 10000)
          "gamepass" ⟨true, true, true⟩ = .ok db' 0) ∧
      handlePurchase (poDB "buyer" 100 5 100 10000) "buyer" "s1" (some (10000 + 1))
          "gamepass" ⟨true, true, true⟩ =
        .err .invalidQuantity (poDB "buyer" 100 5 100 10000) :=
  purchase_quantity_boundary (poDB "buyer" 100 5 100 10000) "buyer" "s1" "gamepass"
    ⟨"s1", "sell1", 5, 100, 10000⟩ ⟨"buyer", 100⟩ ⟨true, true, true⟩ 500 rfl rfl
    (by norm_num) (by norm_num [calculateTotal])

/-- C8: for every accepted purchase of `n` units at price `p1k` per 1000,
the exact product `(n / 1000) · p1k` is rounded to currency precision (2
decimals) by the store: the order row records its scale-2 rounding, the
purchase transaction records the scale-2 rounding of its negation, and the
buyer's balance is stored as the scale-2 rounding of `balance − total`. -/
theorem purchase_total_rounded (db : DB) (u sid dm : String) (s : Seller) (p : Profile)
    (n : ℤ)
    (hs : findSingle (fun x => x.sid == sid) db.sellers = some s)
    (hp : getProfile db u = some p)
    (hq : ¬(n < s.min_amount ∨ s.max_amount < n))
    (hb : ¬(p.balance < calculateTotal n s.price_per_1k)) :
    ∃ db', handlePurchase db u sid (some n) dm ⟨true, true, true⟩ =
        .ok db' db.orders.length ∧
      db'.orders = db.orders ++ [⟨db.orders.length, u, s.sid, n,
        pgRound2 ((n : ℚ) / 1000 * s.price_per_1k), dm, "pending"⟩] ∧
      db'.transactions = db.transactions ++ [⟨u, some db.orders.length, "purchase",
        pgRound2 (-((n : ℚ) / 1000 * s.price_per_1k)), "Compra de Robux"⟩] ∧
      profileBalance db' u =
        some (pgRound2 (p.balance - (n : ℚ) / 1000 * s.price_per_1k)) := by
  have hb' : ¬(p.balance < (n : ℚ) / 1000 * s.price_per_1k) := by
    simpa [calculateTotal] using hb
  have hp' : findSingle (fun q => q.id == u) db.profiles = some p := hp
  simp [handlePurchase, hs, hp', hq, hb', calculateTotal, txInsert, txTypeAllowed,
    profileBalance, getProfile, findSingle_profile_setBalance db.profiles u _ p hp']

/-- C8, witness: the spec scenario — price 5.00 per 1000, 2000 units, buyer
balance 15.00: total 10.00 recorded on the order row, transaction −10.00,
balance becomes 5.00. -/
theorem purchase_total_rounded_witness :
    ∃ db', handlePurchase (poDB "buyer" 15 5 100 10000) "buyer" "s1" (some 2000)
        "gamepass" ⟨true, true, true⟩ = .ok db' 0 ∧
      db'.orders = [⟨0, "buyer", "s1", 2000, 10, "gamepass", "pending"⟩] ∧
      db'.transactions = [⟨"buyer", some 0, "purchase", -10, "Compra de Robux"⟩] ∧
      profileBalance db' "buyer" = some 5 := by
  obtain ⟨db', h1, h2, h3, h4⟩ := purchase_total_rounded (poDB "buyer" 15 5 100 10000)
    "buyer" "s1" "gamepass" ⟨"s1", "sell1", 5, 100, 10000⟩ ⟨"buyer", 15⟩ 2000 rfl rfl
    (by norm_num) (by norm_num [calculateTotal])
  refine ⟨db', h1, ?_, ?_, ?_⟩
  · rw [h2]
    norm_num [pgRound2, poDB]
  · rw [h3]
    norm_num [pgRound2, poDB]
  · rw [h4]
    norm_num [pgRound2, poDB]

/-- C9, counterexample: with the order insert succeeding and the balance
update failing, `handlePurchase` stops with an error while the store holds
the new order row but the buyer's balance and the transaction table are
untouched — a partial state, so the three mutations are not all-or-nothing. -/
theorem purchase_partial_state_on_failed_debit :
    (poDB "buyer" 15 5 100 10000).orders = [] ∧
      (poErrDB (handlePurchase (poDB "buyer" 15 5 100 10000) "buyer" "s1" (some 2000)
            "gamepass" ⟨true, false, true⟩)).map
          (fun db => (db.orders.length, profileBalance db "buyer",
            db.transactions.length)) = some (1, some 15, 0) := by
  refine ⟨rfl, ?_⟩
  simp only [handlePurchase, poDB, getProfile, findSingle, setBalance, txInsert,
    txTypeAllowed, calculateTotal]
  norm_num
  all_goals simp [poErrDB, profileBalance, getProfile, findSingle]
  all_goals try norm_num

/-- C9 (amended): the three mutations of `handlePurchase` are sequential,
not atomic: a failed order insert leaves the store untouched; a failed
balance update leaves the order row without the debit or transaction; a
failed transaction insert leaves the order and debit without the audit row
(and still reports success); only when every step succeeds are all three
effects applied. -/
theorem purchase_sequential_effects (db : DB) (u sid dm : String) (s : Seller)
    (p : Profile) (n : ℤ) (orc : StepOracle)
    (hs : findSingle (fun x => x.sid == sid) db.sellers = some s)
    (hp : getProfile db u = some p)
    (hq : ¬(n < s.min_amount ∨ s.max_amount < n))
    (hb : ¬(p.balance < calculateTotal n s.price_per_1k)) :
    (orc.orderInsertOk = false →
        handlePurchase db u sid (some n) dm orc = .err .orderInsertFailed db) ∧
      (orc.orderInsertOk = true → orc.balanceUpdateOk = false →
        handlePurchase db u sid (some n) dm orc = .err .balanceUpdateFailed
          { db with orders := db.orders ++ [⟨db.orders.length, u, s.sid, n,
              pgRound2 (calculateTotal n s.price_per_1k), dm, "pending"⟩] }) ∧
      (orc.orderInsertOk = true → orc.balanceUpdateOk = true → orc.txInsertOk = false →
        handlePurchase db u sid (some n) dm orc = .ok
          { db with
            orders := db.orders ++ [⟨db.orders.length, u, s.sid, n,
              pgRound2 (calculateTotal n s.price_per_1k), dm, "pending"⟩],
            profiles := setBalance db.profiles u
              (pgRound2 (p.balance - calculateTotal n s.price_per_1k)) }
          db.orders.length) ∧
      (orc.orderInsertOk = true → orc.balanceUpdateOk = true → orc.txInsertOk = true →
        handlePurchase db u sid (some n) dm orc = .ok
          { db with
            orders := db.orders ++ [⟨db.orders.length, u, s.sid, n,
              pgRound2 (calculateTotal n s.price_per_1k), dm, "pending"⟩],
            profiles := setBalance db.profiles u
              (pgRound2 (p.balance - calculateTotal n s.price_per_1k)),
            transactions := db.transactions ++ [⟨u, some db.orders.length, "purchase",
              pgRound2 (-calculateTotal n s.price_per_1k), "Compra de Robux"⟩] }
          db.orders.length) := by
  refine ⟨fun h1 => ?_, fun h1 h2 => ?_, fun h1 h2 h3 => ?_, fun h1 h2 h3 => ?_⟩ <;>
    simp [handlePurchase, hs, hp, hq, hb, h1, txInsert, txTypeAllowed]
  · simp [h2]
  · simp [h2, h3]
  · simp [h2, h3]

/-- C9, witness: the sequential-effects characterization applied with a
failing balance update — the handler errors out with the order row persisted
and nothing else changed. -/
theorem purchase_sequential_effects_witness :
    handlePurchase (poDB "buyer" 15 5 100 10000) "buyer" "s1" (some 2000) "gamepass"
        ⟨true, false, true⟩ =
      .err .balanceUpdateFailed
        { poDB "buyer" 15 5 100 10000 with
          orders := [⟨0, "buyer", "s1", 2000, pgRound2 (calculateTotal 2000 5), "gamepass",
            "pending"⟩] } :=
  (purchase_sequential_effects (poDB "buyer" 15 5 100 10000) "buyer" "s1" "gamepass"
      ⟨"s1", "sell1", 5, 100, 10000⟩ ⟨"buyer", 15⟩ 2000 ⟨true, false, true⟩ rfl rfl
      (by norm_num) (by norm_num [calculateTotal])).2.1 rfl rfl

end RobuxHub
